import Mathlib

/-!
# CRM-Agent plan executor: a shallow embedding

This file embeds the core of the repository's plan executor
(`app/core/executor.py`, `app/core/tools.py`, `app/core/rbac.py`,
`app/core/storage.py`, `app/core/reports.py`, `app/core/models.py`) in Lean 4
and proves the specification's testable properties about it.

Modelling conventions:

* Python/JSON values are modelled by `JVal` (null, bool, int, string, array,
  object).  Pandas `NaN` cells (produced by `json_normalize` for keys missing
  from a row) are modelled by `JVal.null`.
* A pandas `DataFrame` is modelled by `DataFrame`: an ordered list of column
  names and an ordered list of rows, each row a list of cells aligned with the
  columns.
* External collaborators (the MongoDB driver, the Metabase client, the Swagger
  client, the wall clock, the artifact-id entropy source) and third-party
  library primitives whose behaviour the repository does not determine
  (`DataFrame.sort_values`, `DataFrame.query`, `pandas.pivot_table`) are
  supplied by an `Env` record of functions; all theorems quantify over `Env`
  unless the claim itself pins a concrete scenario.
* Fallible Python code is modelled with `Except`: a raised `HTTPException`
  becomes `PyErr.http`, any other raised exception becomes `PyErr.exn`, and
  `execute_plan`'s `try/except` ladder converts both to `HError` exactly as in
  the source.
-/

/-- A JSON-like Python value (the `Any` of the source's dict payloads).
`null` also stands for a pandas `NaN` cell. -/
inductive JVal where
  | null : JVal
  | bool : Bool → JVal
  | int : Int → JVal
  | str : String → JVal
  | arr : List JVal → JVal
  | obj : List (String × JVal) → JVal
deriving Repr

mutual

/-- Structural equality on `JVal` (Python `==` on the scalar/list/dict
fragment the repository traffics in). -/
def JVal.beq : JVal → JVal → Bool
  | .null, .null => true
  | .bool a, .bool b => a == b
  | .int a, .int b => a == b
  | .str a, .str b => a == b
  | .arr xs, .arr ys => JVal.beqList xs ys
  | .obj xs, .obj ys => JVal.beqFields xs ys
  | _, _ => false

/-- Elementwise equality of `JVal` lists. -/
def JVal.beqList : List JVal → List JVal → Bool
  | [], [] => true
  | x :: xs, y :: ys => JVal.beq x y && JVal.beqList xs ys
  | _, _ => false

/-- Elementwise equality of field lists. -/
def JVal.beqFields : List (String × JVal) → List (String × JVal) → Bool
  | [], [] => true
  | (k, v) :: xs, (l, w) :: ys => k == l && JVal.beq v w && JVal.beqFields xs ys
  | _, _ => false

end

instance : BEq JVal := ⟨JVal.beq⟩

/-- A row of a raw document source (a MongoDB document / mock record):
an ordered association list of field name to value. -/
abbrev Doc := List (String × JVal)

/-- Model of a pandas `DataFrame`: ordered column names plus ordered rows,
each row a list of cells aligned with `cols`. -/
structure DataFrame where
  cols : List String
  rows : List (List JVal)
deriving Repr

/-- `pd.DataFrame()`: the empty frame. -/
def DataFrame.emptyDF : DataFrame := { cols := [], rows := [] }

/-- Pandas `df.empty`: true iff one of the axes has length zero. -/
def DataFrame.isEmpty (df : DataFrame) : Bool :=
  df.rows.isEmpty || df.cols.isEmpty

/-- `df.head n`. -/
def DataFrame.head (df : DataFrame) (n : Nat) : DataFrame :=
  { cols := df.cols, rows := df.rows.take n }

/-- Position of a column name, `df.columns.get_loc`-style. -/
def DataFrame.colIdx (df : DataFrame) (c : String) : Option Nat :=
  df.cols.findIdx? (· = c)

/-- The cell of row `r` (a row of `df`) at column `c`; missing columns read
as `null` (callers check column existence first where the source would raise
a `KeyError`). -/
def DataFrame.cell (df : DataFrame) (r : List JVal) (c : String) : JVal :=
  match df.colIdx c with
  | some i => r.getD i .null
  | none => .null

/-- `df[names]` for a list of column names all known to exist:
projection preserving row order. -/
def DataFrame.selectKnown (df : DataFrame) (names : List String) : DataFrame :=
  { cols := names, rows := df.rows.map (fun r => names.map (df.cell r)) }

/-- `df.head(10).to_dict(orient="records")`: the preview rows. -/
def DataFrame.previewRecords (df : DataFrame) : List Doc :=
  (df.rows.take 10).map (fun r => df.cols.zip r)

mutual

/-- The flattening step of `pd.json_normalize` on one value: a nested
object contributes dotted keys, every other value is one cell. -/
def flattenVal (key : String) : JVal → Doc
  | .obj fs => flattenFields key fs
  | v => [(key, v)]

/-- The flattening step of `pd.json_normalize` on a field list: nested
objects become dotted keys (`parent.child`). -/
def flattenFields (pre : String) : List (String × JVal) → Doc
  | [] => []
  | (k, v) :: rest =>
    flattenVal (if pre = "" then k else pre ++ "." ++ k) v ++ flattenFields pre rest

end

/-- Column order of `pd.json_normalize`: keys in order of first appearance
across the flattened records. -/
def normalizeCols (rows : List Doc) : List String :=
  rows.foldl
    (fun acc r =>
      (flattenFields "" r).foldl
        (fun acc2 kv => if kv.1 ∈ acc2 then acc2 else acc2 ++ [kv.1]) acc)
    []

/-- `pd.json_normalize(rows)`: one column per flattened key, cells read by
key lookup, keys missing from a record becoming `NaN` (here `null`). -/
def jsonNormalize (rows : List Doc) : DataFrame :=
  let cols := normalizeCols rows
  { cols := cols
    rows := rows.map fun r =>
      let fr := flattenFields "" r
      cols.map (fun c => (fr.lookup c).getD .null) }

/-- Python `str()` as applied by `Series.astype(str)` to a cell.  A `NaN`
cell stringifies to `"nan"`; containers get a fixed rendering (the exact
text of Python's container `repr` is irrelevant to every claim; only its
length for scalar cells is ever inspected). -/
def jstr : JVal → String
  | .null => "nan"
  | .bool b => if b then "True" else "False"
  | .int n => toString n
  | .str s => s
  | .arr xs => "[" ++ String.intercalate ", " (xs.map (fun _ => "..")) ++ "]"
  | .obj fs => "\x7b" ++ String.intercalate ", " (fs.map (·.1)) ++ "\x7d"

/-- Insertion of one element into a `≤`-sorted list (stable). -/
def insertLe {α : Type} (le : α → α → Bool) (x : α) : List α → List α
  | [] => [x]
  | y :: ys => if le x y then x :: y :: ys else y :: insertLe le x ys

/-- Stable insertion sort by a boolean `≤`. -/
def insertionSort {α : Type} (le : α → α → Bool) : List α → List α
  | [] => []
  | x :: xs => insertLe le x (insertionSort le xs)

/-- `Series.quantile(0.9)` with the default linear interpolation, over a
nonempty list of natural numbers (the stringified cell lengths), returned
*in tenths* so that everything stays in exact `Nat` arithmetic: with the
values sorted ascending and `h = (n-1) * 9/10`, the quantile is
`x⌊h⌋ + (h - ⌊h⌋) * (x⌊h⌋₊₁ - x⌊h⌋)`, which is an exact multiple of `1/10`.
(The idealized exact value of numpy's linear interpolation.) -/
def quantile90Tenths (lens : List Nat) : Nat :=
  let sorted := insertionSort (fun a b : Nat => decide (a ≤ b)) lens
  let h10 := (lens.length - 1) * 9
  let lo := sorted.getD (h10 / 10) 0
  let hi := sorted.getD (h10 / 10 + 1) lo
  10 * lo + (h10 % 10) * (hi - lo)

/-- The autofit column width the source computes
(`tools.py`, `export_excel`): `max(10, min(60, int(q90_of_lengths) + 3))`,
where Python's `int()` truncates the quantile toward zero (= floor, the
lengths being nonnegative). -/
def autofitWidth (lens : List Nat) : Nat :=
  max 10 (min 60 (quantile90Tenths lens / 10 + 3))

/-- The width formula as the specification words it: the *ceiling* of the
90th percentile, plus 3, clamped to `[10, 60]`.  Stated for comparison with
`autofitWidth`; the source truncates instead. -/
def specCeilWidth (lens : List Nat) : Nat :=
  max 10 (min 60 ((quantile90Tenths lens + 9) / 10 + 3))

/-- An `HTTPException`: HTTP status code plus detail string. -/
structure HError where
  status : Nat
  detail : String
deriving Repr, DecidableEq

/-- A raised Python exception, as the executor's `try/except` ladder
distinguishes them: a `fastapi.HTTPException`, a pydantic
`ValidationError`, or any other exception (carried as its `str(e)`). -/
inductive PyErr where
  | http : HError → PyErr
  | valid : String → PyErr
  | exn : String → PyErr
deriving Repr, DecidableEq

/-- `MongoReadSpec`: collection, aggregation pipeline, limit (pydantic
enforces `1 ≤ limit ≤ 20000` at parse time). -/
structure MongoReadSpec where
  collection : String
  pipeline : List Doc
  limit : Nat
deriving Repr

/-- `DataframeOpSpec`: operation name plus free-form params dict. -/
structure DataframeOpSpec where
  operation : String
  params : Doc
deriving Repr

/-- `PlotSpec`. -/
structure PlotSpec where
  kind : String
  x : Option String
  y : Option String
  agg : Option String
  title : Option String
deriving Repr

/-- `ExcelSpec` (defaults `sheet_name="Sheet1"`, `index=False`,
`autofit=True`). -/
structure ExcelSpec where
  sheet_name : String
  index : Bool
  autofit : Bool
deriving Repr

/-- `MetabaseQuerySpec`. -/
structure MetabaseQuerySpec where
  card_id : Int
  params : Doc
deriving Repr

/-- `MetabaseEmbedSpec` (default `theme="light"`). -/
structure MetabaseEmbedSpec where
  resource_type : String
  resource_id : Int
  params : Doc
  theme : String
deriving Repr

/-- `ReportSheetSpec`. -/
structure ReportSheetSpec where
  name : String
  source : String
  metabase_card_id : Option Int
  metabase_params : Doc
  mongo_collection : Option String
  mongo_pipeline : List Doc
deriving Repr

/-- `ReportSpec`. -/
structure ReportSpec where
  title : String
  sheets : List ReportSheetSpec
deriving Repr

/-- `ToolCall`: tool name plus raw args dict. -/
structure ToolCall where
  tool : String
  args : Doc
deriving Repr

/-- `Plan`: intent, ordered tool calls, optional final message. -/
structure Plan where
  intent : String
  tool_calls : List ToolCall
  final_message : Option String
deriving Repr

/-- The environment of external collaborators and third-party library
primitives the core calls into and does not itself define: the MongoDB
driver, the mock dataset (whose rows carry process-start-dependent
timestamps), the configuration-derived collection allow-list, the wall
clock and the artifact-id entropy source (both indexed by a call counter),
the Swagger and Metabase clients, and the pandas primitives
(`sort_values`, `DataFrame.query`, `pivot_table`) whose row-level
behaviour pandas, not this repository, determines. -/
structure Env where
  mongoAvailable : Bool
  now : String
  aggregate : String → List Doc → Except String (List Doc)
  mockData : String → List Doc
  allowedCollections : List String
  clock : Nat → String
  genId : Nat → String
  swagger : Option (String → String → JVal → Except PyErr JVal)
  metabaseQueryDf : MetabaseQuerySpec → Except PyErr DataFrame
  metabaseEmbed : MetabaseEmbedSpec → Except PyErr String
  sortValues : DataFrame → JVal → Bool → Except String DataFrame
  queryFilter : DataFrame → String → Except String DataFrame
  pivotTable : DataFrame → JVal → JVal → JVal → JVal → Except String DataFrame

/-- The access policy (`rbac.py`): allow-list of collections, deny-list of
fields, role. -/
structure RbacPolicy where
  allow_collections : List String
  deny_fields : List String
  role : String
deriving Repr

/-- The fixed field deny-list of `rbac_policy`. -/
def denyFields : List String := ["ssn", "salary"]

/-- `rbac_policy(user_id)`: recomputed on every access from configuration
and the fixed deny-list. -/
def rbacPolicy (env : Env) (user_id : String) : RbacPolicy :=
  { allow_collections := env.allowedCollections
    deny_fields := denyFields
    role := if user_id = "admin" ∨ user_id = "alice" then "admin" else "analyst" }

/-- `c.split(".")[0]`: the head segment of a dotted column name (the
characters before the first dot). -/
def headSegment (c : String) : String := ⟨c.data.takeWhile (· ≠ '.')⟩

/-- The columns of `df` that survive redaction:
`[c for c in df.columns if c.split(".")[0] not in deny]`. -/
def keepColumns (df : DataFrame) (deny : List String) : List String :=
  df.cols.filter (fun c => !deny.contains (headSegment c))

/-- `"$where" in stage or "$function" in stage` (dict-key membership). -/
def forbiddenStage (st : Doc) : Bool :=
  st.any (fun kv => kv.1 = "$where" || kv.1 = "$function")

/-- `run_mongo(user_id, spec)` (`tools.py`).  The second component records
the aggregate queries actually issued to the live database (always `[]` or
a singleton), so that "no query was issued" is a statable fact. -/
def runMongo (env : Env) (user_id : String) (spec : MongoReadSpec) :
    Except PyErr DataFrame × List (String × List Doc) :=
  if !(rbacPolicy env user_id).allow_collections.contains spec.collection then
    (.error (.http ⟨403, s!"User not allowed to access collection {spec.collection}"⟩), [])
  else if !env.mongoAvailable then
    let mock := env.mockData spec.collection
    if mock.isEmpty then (.ok DataFrame.emptyDF, [])
    else
      let df := jsonNormalize mock
      let df := if spec.limit ≠ 0 then df.head spec.limit else df
      let deny := (rbacPolicy env user_id).deny_fields
      (.ok (df.selectKnown (keepColumns df deny)), [])
  else if spec.pipeline.any forbiddenStage then
    (.error (.http ⟨400, "Forbidden stage in pipeline"⟩), [])
  else
    let q := spec.pipeline ++ [[("$limit", JVal.int spec.limit)]]
    match env.aggregate spec.collection q with
    | .error e => (.error (.http ⟨500, e⟩), [(spec.collection, q)])
    | .ok rows =>
      if rows.isEmpty then (.ok DataFrame.emptyDF, [(spec.collection, q)])
      else
        let df := jsonNormalize rows
        let deny := (rbacPolicy env user_id).deny_fields
        (.ok (df.selectKnown (keepColumns df deny)), [(spec.collection, q)])

/-- Constructor tag of a `JVal`, used to order group keys of unlike types
(pandas raises for unlike-typed keys; no execution path in this development
compares unlike keys, so any total tiebreak is adequate). -/
def JVal.tag : JVal → Nat
  | .null => 0 | .bool _ => 1 | .int _ => 2 | .str _ => 3 | .arr _ => 4 | .obj _ => 5

/-- Code-point comparison of character lists (Python's `str` ordering). -/
def leChars : List Char → List Char → Bool
  | [], _ => true
  | _ :: _, [] => false
  | a :: as, b :: bs =>
    if a.val.toNat < b.val.toNat then true
    else if b.val.toNat < a.val.toNat then false
    else leChars as bs

/-- `s <= t` on strings, by code point (Python/pandas string ordering). -/
def strLeB (s t : String) : Bool := leChars s.data t.data

/-- `s.lower()` on the ASCII range (every operation name the dispatcher
compares is ASCII). -/
def pyLower (s : String) : String :=
  ⟨s.data.map (fun c =>
    if 65 ≤ c.val.toNat ∧ c.val.toNat ≤ 90 then Char.ofNat (c.val.toNat + 32) else c)⟩

/-- Ordering of scalar group keys as pandas sorts them. -/
def jvalLe (a b : JVal) : Bool :=
  match a, b with
  | .int m, .int n => m ≤ n
  | .str s, .str t => strLeB s t
  | .bool x, .bool y => !x || y
  | _, _ => a.tag ≤ b.tag

/-- Lexicographic ordering on composite group keys. -/
def jkeyLe : List JVal → List JVal → Bool
  | [], _ => true
  | _ :: _, [] => false
  | a :: as, b :: bs => if JVal.beq a b then jkeyLe as bs else jvalLe a b

/-- First-occurrence deduplication of group keys. -/
def dedupKeys (ks : List (List JVal)) : List (List JVal) :=
  ks.foldl (fun acc k => if acc.any (fun k2 => JVal.beqList k2 k) then acc else acc ++ [k]) []

/-- The `"sum"` aggregator over a group's cells: integer sum when every
cell is an integer (the only case any execution path here exercises;
pandas' behaviour on other dtypes is out of scope and modelled as a raised
exception). -/
def aggSum (cells : List JVal) : Except String JVal :=
  let ints := cells.filterMap (fun v => match v with | .int n => some n | _ => none)
  if ints.length = cells.length then .ok (.int (ints.foldl (· + ·) 0))
  else .error "unsupported operand type(s) for sum"

/-- One named aggregator applied to a group's cells (`sum` and `count` are
the aggregators the repository's plans use; others raise). -/
def aggApply (fname : String) (cells : List JVal) : Except String JVal :=
  if fname = "sum" then aggSum cells
  else if fname = "count" then .ok (.int cells.length)
  else .error s!"unsupported aggregator {fname}"

/-- `df.groupby(by).agg(aggPairs).reset_index()`: group keys come first,
rows with a null in a key column are dropped (pandas `dropna=True`),
output rows are sorted ascending by key (pandas `sort=True`), and each
aggregated column holds the aggregator applied to the group's cells in
input row order. -/
def groupbyAgg (df : DataFrame) (by_ : List String) (aggPairs : List (String × String)) :
    Except String DataFrame := do
  if !(by_.all (df.cols.contains ·)) then
    .error s!"KeyError in groupby key"
  else if !(aggPairs.all (fun p => df.cols.contains p.1)) then
    .error s!"KeyError in aggregation column"
  else
    let rows := df.rows.filter (fun r => by_.all (fun c => !(JVal.beq (df.cell r c) .null)))
    let keyOf := fun r => by_.map (df.cell r)
    let keys := insertionSort jkeyLe (dedupKeys (rows.map keyOf))
    let outRows ← keys.mapM (fun k => do
      let grp := rows.filter (fun r => JVal.beqList (keyOf r) k)
      let aggs ← aggPairs.mapM (fun p => aggApply p.2 (grp.map (fun r => df.cell r p.1)))
      pure (k ++ aggs))
    pure { cols := by_ ++ aggPairs.map (·.1), rows := outRows }

/-- `params[k]`; a missing key is Python's `KeyError`, whose `str()` is the
quoted key. -/
def pGet (p : Doc) (k : String) : Except String JVal :=
  match p.lookup k with
  | some v => .ok v
  | none => .error s!"'{k}'"

/-- Read a value as a list of column names (a plain string means the
single-column form pandas also accepts). -/
def asColList : JVal → Except String (List String)
  | .str s => .ok [s]
  | .arr xs =>
    let ss := xs.filterMap (fun v => match v with | .str s => some s | _ => none)
    if ss.length = xs.length then .ok ss else .error "column names must be strings"
  | _ => .error "column names must be strings"

/-- `dataframe_ops(df, spec)` (`tools.py`).  An absent working relation
returns the empty frame before the operation is even inspected; `sort`,
`filter` and `pivot` delegate their row-level behaviour to the pandas
primitives carried by `Env`. -/
def dataframeOps (env : Env) (df? : Option DataFrame) (spec : DataframeOpSpec) :
    Except PyErr DataFrame :=
  let op := pyLower spec.operation
  let p := spec.params
  match df? with
  | none => .ok DataFrame.emptyDF
  | some df =>
    if op = "select" then
      match (do
        let cols ← pGet p "columns" >>= asColList
        if cols.all (df.cols.contains ·) then pure (df.selectKnown cols)
        else .error s!"KeyError: columns not in index") with
      | .ok r => .ok r
      | .error e => .error (.exn e)
    else if op = "filter" then
      match (do
        let q ← pGet p "query"
        match q with
        | .str s => env.queryFilter df s
        | _ => .error "query must be a string") with
      | .ok r => .ok r
      | .error e => .error (.exn e)
    else if op = "sort" then
      match (do
        let by_ ← pGet p "by"
        let asc ← match p.lookup "ascending" with
          | some (.bool b) => Except.ok b
          | some _ => Except.error "ascending must be a bool"
          | none => Except.ok true
        env.sortValues df by_ asc) with
      | .ok r => .ok r
      | .error e => .error (.exn e)
    else if op = "groupby" then
      match (do
        let by_ ← pGet p "by" >>= asColList
        let aggJ : JVal ← match p.lookup "agg" with
          | some v => Except.ok v
          | none =>
            let vc := match p.lookup "value_col" with
              | some (.str s) => s
              | _ => "_id"
            Except.ok (JVal.obj [(vc, .str "count")])
        let aggPairs ← match aggJ with
          | .obj fs =>
            let ps := fs.filterMap (fun (kv : String × JVal) => match kv.2 with
              | .str f => some (kv.1, f) | _ => none)
            if ps.length = fs.length then Except.ok ps
            else Except.error "aggregators must be named"
          | _ => Except.error "agg must be a mapping"
        groupbyAgg df by_ aggPairs) with
      | .ok r => .ok r
      | .error e => .error (.exn e)
    else if op = "pivot" then
      match (do
        let idx ← pGet p "index"
        let cls ← pGet p "columns"
        let vls ← pGet p "values"
        let af := (p.lookup "aggfunc").getD (.str "sum")
        env.pivotTable df idx cls vls af) with
      | .ok r => .ok r
      | .error e => .error (.exn e)
    else .error (.http ⟨400, s!"Unknown operation {op}"⟩)

/-- Python truthiness of an optional string (`spec.x and spec.y`):
`None` and `""` are falsy. -/
def truthyOptStr : Option String → Bool
  | none => false
  | some s => s ≠ ""

/-- The content of a rendered plot: the kind, the (key, value) series the
source computes before handing it to matplotlib, and the title.  The PNG
encoder itself is an opaque byte producer; its input is what matters. -/
structure PlotPng where
  kind : String
  data : List (JVal × JVal)
  title : Option String
deriving Repr

/-- `df.groupby(x)[y].sum()` as a (key, sum) series, keys sorted. -/
def groupbySumSeries (df : DataFrame) (x y : String) :
    Except String (List (JVal × JVal)) := do
  let g ← groupbyAgg df [x] [(y, "sum")]
  pure (g.rows.map (fun r => (r.getD 0 .null, r.getD 1 .null)))

/-- `df[c].value_counts()`: distinct non-null values with their counts,
sorted by descending count. -/
def valueCounts (df : DataFrame) (c : String) : Except String (List (JVal × JVal)) :=
  if !df.cols.contains c then .error s!"'{c}'"
  else
    let vals := (df.rows.map (fun r => df.cell r c)).filter (fun v => !(JVal.beq v .null))
    let distinct := vals.foldl
      (fun acc v => if acc.any (fun w => JVal.beq w v) then acc else acc ++ [v]) []
    let pairs := distinct.map (fun v => (v, JVal.int (vals.filter (fun w => JVal.beq w v)).length))
    .ok (insertionSort (fun a b : JVal × JVal => match a.2, b.2 with
      | .int m, .int n => n ≤ m
      | _, _ => true) pairs)

/-- `df is None or df.empty`: the empty-relation precondition of
`make_plot`. -/
def relationAbsentOrEmpty : Option DataFrame → Bool
  | none => true
  | some df => df.isEmpty

/-- `make_plot(df, spec)` (`tools.py`): empty-relation check first, then
the kind/axes dispatch, else the bad-spec error.  Nothing is rendered or
saved when the check fails. -/
def makePlot (df? : Option DataFrame) (spec : PlotSpec) : Except PyErr PlotPng :=
  if relationAbsentOrEmpty df? then .error (.http ⟨400, "No data to plot"⟩)
  else
    let df := df?.getD DataFrame.emptyDF
    if (spec.kind = "bar" || spec.kind = "line") && truthyOptStr spec.x && truthyOptStr spec.y then
      match groupbySumSeries df (spec.x.getD "") (spec.y.getD "") with
      | .ok s => .ok ⟨spec.kind, s, spec.title⟩
      | .error e => .error (.exn e)
    else if spec.kind = "pie" && truthyOptStr spec.y then
      match valueCounts df (spec.y.getD "") with
      | .ok s => .ok ⟨spec.kind, s, spec.title⟩
      | .error e => .error (.exn e)
    else if spec.kind = "scatter" && truthyOptStr spec.x && truthyOptStr spec.y then
      if df.cols.contains (spec.x.getD "") && df.cols.contains (spec.y.getD "") then
        .ok ⟨spec.kind,
             df.rows.map (fun r => (df.cell r (spec.x.getD ""), df.cell r (spec.y.getD ""))),
             spec.title⟩
      else .error (.exn "KeyError in scatter axes")
    else .error (.http ⟨400, "Invalid plot spec for the provided DataFrame"⟩)

/-- One worksheet as written by the exporter: sheet name, whether the row
index was written, the relation serialized into it, and the
`set_column(i, i, width)` calls issued for it, in order (`i` is the
1-based position `enumerate(df.columns, start=1)` produces). -/
structure Sheet where
  name : String
  withIndex : Bool
  df : DataFrame
  widths : List (Nat × Nat)
deriving Repr

/-- A produced workbook (the xlsx encoder being an opaque byte producer,
the workbook's content is what the embedding retains). -/
structure Workbook where
  sheets : List Sheet
deriving Repr

/-- Stringified lengths of column `j`'s cells (`df[col].astype(str).str.len()`). -/
def colLens (df : DataFrame) (j : Nat) : List Nat :=
  df.rows.map (fun r => (jstr (r.getD j .null)).length)

/-- `export_excel(df, spec)` (`tools.py`).  With `autofit` and at least one
column but no rows, `quantile(0.9)` of an empty series is `NaN` and
Python's `int(NaN)` raises, so the export fails. -/
def export_excel (df : DataFrame) (spec : ExcelSpec) : Except PyErr Workbook :=
  if spec.autofit then
    if df.cols.isEmpty then
      .ok ⟨[⟨spec.sheet_name, spec.index, df, []⟩]⟩
    else if df.rows.isEmpty then
      .error (.exn "cannot convert float NaN to integer")
    else
      .ok ⟨[⟨spec.sheet_name, spec.index, df,
            (List.range df.cols.length).map (fun j => (j + 1, autofitWidth (colLens df j)))⟩]⟩
  else .ok ⟨[⟨spec.sheet_name, spec.index, df, []⟩]⟩

/-- `build_report(user_id, spec)` (`reports.py`): a `_meta` sheet, then one
sheet per `ReportSheetSpec`, each resolved independently of the working
relation; per-column widths default to 10 on an empty frame. -/
def build_report (env : Env) (now : String) (user_id : String) (spec : ReportSpec) :
    Except PyErr Workbook := do
  let metaDF : DataFrame :=
    { cols := ["title", "generated_at"], rows := [[.str spec.title, .str now]] }
  let metaSheet : Sheet := ⟨"_meta", false, metaDF, []⟩
  let sheets ← spec.sheets.mapM (fun sh => do
    let df ←
      if sh.source = "metabase_card" && sh.metabase_card_id.isSome then
        env.metabaseQueryDf ⟨sh.metabase_card_id.getD 0, sh.metabase_params⟩
      else if sh.source = "mongo" && truthyOptStr sh.mongo_collection then
        (runMongo env user_id ⟨sh.mongo_collection.getD "", sh.mongo_pipeline, 20000⟩).1
      else pure DataFrame.emptyDF
    let nm := if sh.name.take 31 = "" then "Sheet" else sh.name.take 31
    let widths := (List.range df.cols.length).map
      (fun j => (j + 1, if df.isEmpty then 10 else autofitWidth (colLens df j)))
    pure (⟨nm, false, df, widths⟩ : Sheet))
  pure ⟨metaSheet :: sheets⟩

/-- Required string field (pydantic). -/
def reqStr (args : Doc) (k : String) : Except String String :=
  match args.lookup k with
  | some (.str s) => .ok s
  | some _ => .error s!"{k}: string required"
  | none => .error s!"{k}: field required"

/-- Optional string field (`Optional[str] = None`). -/
def optStr (args : Doc) (k : String) : Except String (Option String) :=
  match args.lookup k with
  | some (.str s) => .ok (some s)
  | some .null => .ok none
  | none => .ok none
  | some _ => .error s!"{k}: string required"

/-- String field with a non-null default. -/
def strD (args : Doc) (k d : String) : Except String String :=
  match args.lookup k with
  | some (.str s) => .ok s
  | none => .ok d
  | some _ => .error s!"{k}: string required"

/-- Bool field with a default. -/
def boolD (args : Doc) (k : String) (d : Bool) : Except String Bool :=
  match args.lookup k with
  | some (.bool b) => .ok b
  | none => .ok d
  | some _ => .error s!"{k}: bool required"

/-- Required integer field. -/
def reqInt (args : Doc) (k : String) : Except String Int :=
  match args.lookup k with
  | some (.int n) => .ok n
  | some _ => .error s!"{k}: int required"
  | none => .error s!"{k}: field required"

/-- Optional integer field. -/
def optInt (args : Doc) (k : String) : Except String (Option Int) :=
  match args.lookup k with
  | some (.int n) => .ok (some n)
  | some .null => .ok none
  | none => .ok none
  | some _ => .error s!"{k}: int required"

/-- Object field with `default_factory=dict`. -/
def objD (args : Doc) (k : String) : Except String Doc :=
  match args.lookup k with
  | some (.obj fs) => .ok fs
  | none => .ok []
  | some _ => .error s!"{k}: object required"

/-- List-of-objects field with `default_factory=list` (pipelines). -/
def docListD (args : Doc) (k : String) : Except String (List Doc) :=
  match args.lookup k with
  | some (.arr xs) =>
    let ds := xs.filterMap (fun v => match v with | .obj fs => some fs | _ => none)
    if ds.length = xs.length then .ok ds else .error s!"{k}: list of objects required"
  | none => .ok []
  | some _ => .error s!"{k}: list required"

/-- `MongoReadSpec(**args)`: `limit` carries `ge=1, le=20000` with
default 1000. -/
def parseMongoReadSpec (args : Doc) : Except String MongoReadSpec := do
  let collection ← reqStr args "collection"
  let pipeline ← docListD args "pipeline"
  let limit ← match args.lookup "limit" with
    | some (.int n) =>
      if 1 ≤ n ∧ n ≤ 20000 then Except.ok n.toNat
      else Except.error "limit: out of range"
    | none => Except.ok 1000
    | some _ => Except.error "limit: int required"
  pure ⟨collection, pipeline, limit⟩

/-- `DataframeOpSpec(**args)`. -/
def parseDataframeOpSpec (args : Doc) : Except String DataframeOpSpec := do
  let operation ← reqStr args "operation"
  let params ← objD args "params"
  pure ⟨operation, params⟩

/-- `PlotSpec(**args)` (`agg` defaults to `"sum"`). -/
def parsePlotSpec (args : Doc) : Except String PlotSpec := do
  let kind ← reqStr args "kind"
  let x ← optStr args "x"
  let y ← optStr args "y"
  let agg ← match args.lookup "agg" with
    | some (.str s) => Except.ok (some s)
    | some .null => Except.ok none
    | none => Except.ok (some "sum")
    | some _ => Except.error "agg: string required"
  let title ← optStr args "title"
  pure ⟨kind, x, y, agg, title⟩

/-- `ExcelSpec(**args)`. -/
def parseExcelSpec (args : Doc) : Except String ExcelSpec := do
  let sheet_name ← strD args "sheet_name" "Sheet1"
  let index ← boolD args "index" false
  let autofit ← boolD args "autofit" true
  pure ⟨sheet_name, index, autofit⟩

/-- `MetabaseQuerySpec(**args)`. -/
def parseMetabaseQuerySpec (args : Doc) : Except String MetabaseQuerySpec := do
  let card_id ← reqInt args "card_id"
  let params ← objD args "params"
  pure ⟨card_id, params⟩

/-- `MetabaseEmbedSpec(**args)`. -/
def parseMetabaseEmbedSpec (args : Doc) : Except String MetabaseEmbedSpec := do
  let resource_type ← reqStr args "resource_type"
  let resource_id ← reqInt args "resource_id"
  let params ← objD args "params"
  let theme ← strD args "theme" "light"
  pure ⟨resource_type, resource_id, params, theme⟩

/-- `ReportSpec(**args)`. -/
def parseReportSpec (args : Doc) : Except String ReportSpec := do
  let title ← reqStr args "title"
  let sheetsJ ← match args.lookup "sheets" with
    | some (.arr xs) => Except.ok xs
    | _ => Except.error "sheets: list required"
  let sheets ← sheetsJ.mapM (fun v => do
    match v with
    | .obj fs => do
      let name ← reqStr fs "name"
      let source ← reqStr fs "source"
      let mcid ← optInt fs "metabase_card_id"
      let mparams ← objD fs "metabase_params"
      let mcoll ← optStr fs "mongo_collection"
      let mpipe ← docListD fs "mongo_pipeline"
      pure (⟨name, source, mcid, mparams, mcoll, mpipe⟩ : ReportSheetSpec)
    | _ => Except.error "sheets: objects required")
  pure ⟨title, sheets⟩

/-- Dump of an optional string field (`model_dump` emits `None` as null). -/
def dumpOptStr : Option String → JVal
  | none => .null
  | some s => .str s

/-- `CreateTaskSpec`. -/
structure CreateTaskSpec where
  title : String
  due_date : Option String
  lead_id : Option String
  owner_id : Option String
  priority : Option String
deriving Repr

/-- `CreateTaskSpec.model_dump()`. -/
def CreateTaskSpec.dump (s : CreateTaskSpec) : JVal :=
  .obj [("title", .str s.title), ("due_date", dumpOptStr s.due_date),
        ("lead_id", dumpOptStr s.lead_id), ("owner_id", dumpOptStr s.owner_id),
        ("priority", dumpOptStr s.priority)]

/-- `CreateTaskSpec(**args)`. -/
def parseCreateTaskSpec (args : Doc) : Except String CreateTaskSpec := do
  pure ⟨← reqStr args "title", ← optStr args "due_date", ← optStr args "lead_id",
        ← optStr args "owner_id", ← optStr args "priority"⟩

/-- `CreateNoteSpec`. -/
structure CreateNoteSpec where
  lead_id : String
  body : String
deriving Repr

/-- `CreateNoteSpec.model_dump()`. -/
def CreateNoteSpec.dump (s : CreateNoteSpec) : JVal :=
  .obj [("lead_id", .str s.lead_id), ("body", .str s.body)]

/-- `CreateNoteSpec(**args)`. -/
def parseCreateNoteSpec (args : Doc) : Except String CreateNoteSpec := do
  pure ⟨← reqStr args "lead_id", ← reqStr args "body"⟩

/-- `LogCallSpec`. -/
structure LogCallSpec where
  lead_id : String
  direction : String
  duration_seconds : Option Int
  summary : Option String
deriving Repr

/-- `LogCallSpec.model_dump()`. -/
def LogCallSpec.dump (s : LogCallSpec) : JVal :=
  .obj [("lead_id", .str s.lead_id), ("direction", .str s.direction),
        ("duration_seconds", match s.duration_seconds with | none => .null | some n => .int n),
        ("summary", dumpOptStr s.summary)]

/-- `LogCallSpec(**args)`. -/
def parseLogCallSpec (args : Doc) : Except String LogCallSpec := do
  pure ⟨← reqStr args "lead_id", ← reqStr args "direction",
        ← optInt args "duration_seconds", ← optStr args "summary"⟩

/-- `CreateActivitySpec` (the `type` field keeps its source name). -/
structure CreateActivitySpec where
  lead_id : String
  type : String
  when : Option String
  notes : Option String
deriving Repr

/-- `CreateActivitySpec.model_dump()`. -/
def CreateActivitySpec.dump (s : CreateActivitySpec) : JVal :=
  .obj [("lead_id", .str s.lead_id), ("type", .str s.type),
        ("when", dumpOptStr s.when), ("notes", dumpOptStr s.notes)]

/-- `CreateActivitySpec(**args)`. -/
def parseCreateActivitySpec (args : Doc) : Except String CreateActivitySpec := do
  pure ⟨← reqStr args "lead_id", ← reqStr args "type",
        ← optStr args "when", ← optStr args "notes"⟩

/-- `UpdateLeadSpec`. -/
structure UpdateLeadSpec where
  lead_id : String
  fields : Doc
deriving Repr

/-- `UpdateLeadSpec(**args)` (`fields` is required). -/
def parseUpdateLeadSpec (args : Doc) : Except String UpdateLeadSpec := do
  let lead_id ← reqStr args "lead_id"
  let fields ← match args.lookup "fields" with
    | some (.obj fs) => Except.ok fs
    | some _ => Except.error "fields: object required"
    | none => Except.error "fields: field required"
  pure ⟨lead_id, fields⟩

/-- `ToggleVehicleTypeSpec`. -/
structure ToggleVehicleTypeSpec where
  id : String
  is_active : Bool
deriving Repr

/-- `ToggleVehicleTypeSpec(**args)`. -/
def parseToggleVehicleTypeSpec (args : Doc) : Except String ToggleVehicleTypeSpec := do
  let id ← reqStr args "id"
  let ia ← match args.lookup "is_active" with
    | some (.bool b) => Except.ok b
    | some _ => Except.error "is_active: bool required"
    | none => Except.error "is_active: field required"
  pure ⟨id, ia⟩

/-- The body-wrapper transport specs (`body` defaults to `{}`). -/
structure BodySpec where
  body : Doc
deriving Repr

/-- `VehicleTripFilterRequestSpec/TrackingLogRequestSpec/...(**args)`. -/
def parseBodySpec (args : Doc) : Except String BodySpec := do
  pure ⟨← objD args "body"⟩

/-- `VehicleCancelTripSpec`. -/
structure VehicleCancelTripSpec where
  trip_id : String
deriving Repr

/-- `VehicleCancelTripSpec(**args)`. -/
def parseVehicleCancelTripSpec (args : Doc) : Except String VehicleCancelTripSpec := do
  pure ⟨← reqStr args "trip_id"⟩

/-- `ChangeVehicleRouteStatusSpec` (`status` is a 3-value literal). -/
structure ChangeVehicleRouteStatusSpec where
  id : String
  status : String
deriving Repr

/-- `ChangeVehicleRouteStatusSpec(**args)`. -/
def parseChangeVehicleRouteStatusSpec (args : Doc) :
    Except String ChangeVehicleRouteStatusSpec := do
  let id ← reqStr args "id"
  let status ← reqStr args "status"
  if status = "ACTIVE" ∨ status = "INACTIVE" ∨ status = "UNDER_MAINTENANCE" then
    pure ⟨id, status⟩
  else .error "status: invalid literal"

/-- One audit record (`{"at": timestamp, "tool": ..., "args": ...}`; the
`at` key is spelled `at_` because `at` is reserved in Lean). -/
structure AuditEntry where
  at_ : String
  tool : String
  args : Doc
deriving Repr

/-- The opaque byte payload of an artifact: what the encoder was given. -/
inductive Payload where
  | png : PlotPng → Payload
  | xlsx : Workbook → Payload
deriving Repr

/-- A stored artifact (`storage.py`). -/
structure ArtifactRecord where
  payload : Payload
  mime : String
  filename : String
deriving Repr

/-- The process-wide `ARTIFACTS` map, insertion-ordered. -/
abbrev Store := List (String × ArtifactRecord)

/-- Python dict assignment `d[k] = v`: replace in place, else append. -/
def setAssoc {α : Type} (l : List (String × α)) (k : String) (v : α) :
    List (String × α) :=
  if l.any (fun kv => kv.1 = k) then
    l.map (fun kv => if kv.1 = k then (k, v) else kv)
  else l ++ [(k, v)]

/-- `save_artifact(payload, mime=..., filename=...)`: a fresh id from the
entropy source (indexed by the save counter) and an insert. -/
def save_artifact (env : Env) (store : Store) (p : Payload) (mime filename : String) :
    String × Store :=
  let id := env.genId store.length
  (id, setAssoc store id ⟨p, mime, filename⟩)

/-- The `{artifact_id, download_url}` value the response holds per artifact. -/
structure ArtifactRef where
  artifact_id : String
  download_url : String
deriving Repr

/-- The accumulating response dict of `execute_plan` (before `message` and
`audit` are added at the end).  `writes` and `reads` model the
`setdefault`-created lists: absent until first used. -/
structure ResponseAcc where
  artifacts : List (String × ArtifactRef)
  preview_rows : List Doc
  embed_urls : List String
  writes : Option (List JVal)
  reads : Option (List JVal)
deriving Repr

/-- `{"artifacts": {}, "preview_rows": [], "embed_urls": []}`. -/
def ResponseAcc.init : ResponseAcc :=
  { artifacts := [], preview_rows := [], embed_urls := [], writes := none, reads := none }

/-- The executor's per-plan mutable state: the working relation and the
accumulating response. -/
structure ExecState where
  dfCache : Option DataFrame
  resp : ResponseAcc
deriving Repr

/-- Initial state of one plan execution. -/
def ExecState.init : ExecState := { dfCache := none, resp := ResponseAcc.init }

/-- `response.setdefault("writes", []).append({key: out})`. -/
def appendWrite (st : ExecState) (key : String) (out : JVal) : ExecState :=
  { st with resp := { st.resp with
      writes := some ((st.resp.writes.getD []) ++ [JVal.obj [(key, out)]]) } }

/-- `response.setdefault("reads", []).append({key: out})`. -/
def appendRead (st : ExecState) (key : String) (out : JVal) : ExecState :=
  { st with resp := { st.resp with
      reads := some ((st.resp.reads.getD []) ++ [JVal.obj [(key, out)]]) } }

/-- Set the working relation and refresh the preview rows. -/
def setDf (st : ExecState) (df : DataFrame) : ExecState :=
  { st with dfCache := some df
            resp := { st.resp with preview_rows := df.previewRecords } }

/-- `execute_plan`'s `except` ladder: a pydantic `ValidationError` becomes
a 400 naming the tool, an `HTTPException` re-raises unchanged, any other
exception becomes a 500 naming the tool. -/
def wrapErr (tool : String) : PyErr → HError
  | .valid ve => ⟨400, s!"Validation error for {tool}: {ve}"⟩
  | .http h => h
  | .exn e => ⟨500, s!"Tool execution error in {tool}: {e}"⟩

/-- `_require_swagger()` (`executor.py`). -/
def requireSwagger (env : Env) :
    Except PyErr (String → String → JVal → Except PyErr JVal) :=
  match env.swagger with
  | none => .error (.http ⟨503,
      "Swagger client not configured. Set SWAGGER_BASE_URL and SWAGGER_SPEC_URL."⟩)
  | some f => .ok f

/-- `str(e)` of the `ValueError` pandas raises when a `DataFrame` is used
in boolean context, as `df_cache or pd.DataFrame()` does in the `excel`
branch of `execute_plan`. -/
def dfTruthinessMsg : String :=
  "The truth value of a DataFrame is ambiguous. Use a.empty, a.bool(), a.item(), a.any() or a.all()."

/-- A `swagger.call(..., query=...)` payload. -/
def qpayload (q : Doc) : JVal := .obj [("query", .obj q)]

/-- A `swagger.call(..., body=...)` payload. -/
def bpayload (b : JVal) : JVal := .obj [("body", b)]

/-- `create_task` (`executor.py`). -/
def create_task (env : Env) (spec : CreateTaskSpec) : Except PyErr JVal := do
  let f ← requireSwagger env
  f "/tasks" "post" (bpayload spec.dump)

/-- `create_note`. -/
def create_note (env : Env) (spec : CreateNoteSpec) : Except PyErr JVal := do
  let f ← requireSwagger env
  f "/notes" "post" (bpayload spec.dump)

/-- `log_call`. -/
def log_call (env : Env) (spec : LogCallSpec) : Except PyErr JVal := do
  let f ← requireSwagger env
  f "/call-logs" "post" (bpayload spec.dump)

/-- `create_activity`. -/
def create_activity (env : Env) (spec : CreateActivitySpec) : Except PyErr JVal := do
  let f ← requireSwagger env
  f "/activity" "post" (bpayload spec.dump)

/-- `update_lead`: a PATCH of `spec.fields` to `/leads/{lead_id}`. -/
def update_lead (env : Env) (spec : UpdateLeadSpec) : Except PyErr JVal := do
  let f ← requireSwagger env
  f s!"/leads/{spec.lead_id}" "patch" (bpayload (.obj spec.fields))

/-- `toggle_vehicle_type`. -/
def toggle_vehicle_type (env : Env) (spec : ToggleVehicleTypeSpec) : Except PyErr JVal := do
  let f ← requireSwagger env
  f "/vehicle-type-toggle" "put" (qpayload [("id", .str spec.id), ("isActive", .bool spec.is_active)])

/-- `get_staff_transport_trips_paginated`. -/
def get_staff_transport_trips_paginated (env : Env) (spec : BodySpec) : Except PyErr JVal := do
  let f ← requireSwagger env
  f "/vehicle-tracking/trips/paged" "put" (bpayload (.obj spec.body))

/-- `add_vehicle_tracking_log`. -/
def add_vehicle_tracking_log (env : Env) (spec : BodySpec) : Except PyErr JVal := do
  let f ← requireSwagger env
  f "/vehicle-tracking/log" "put" (bpayload (.obj spec.body))

/-- `vehicle_canceled`. -/
def vehicle_canceled (env : Env) (spec : VehicleCancelTripSpec) : Except PyErr JVal := do
  let f ← requireSwagger env
  f "/vehicle-tracking/cancel-trip" "put" (qpayload [("tripId", .str spec.trip_id)])

/-- `allocate_students_to_vehicle`. -/
def allocate_students_to_vehicle (env : Env) (spec : BodySpec) : Except PyErr JVal := do
  let f ← requireSwagger env
  f "/vehicle-route/students/allocate" "put" (bpayload (.obj spec.body))

/-- `change_vehicle_route_status`. -/
def change_vehicle_route_status (env : Env) (spec : ChangeVehicleRouteStatusSpec) :
    Except PyErr JVal := do
  let f ← requireSwagger env
  f "/vehicle-route/status" "put" (qpayload [("id", .str spec.id), ("status", .str spec.status)])

/-- `allocate_staff_to_vehicle`. -/
def allocate_staff_to_vehicle (env : Env) (spec : BodySpec) : Except PyErr JVal := do
  let f ← requireSwagger env
  f "/vehicle-route/staff/allocate" "put" (bpayload (.obj spec.body))

/-- One tool-dispatch branch of `execute_plan`'s loop body, before the
`except` ladder: parse the args, run the handler, update state.  The
artifact store is threaded separately because it is process-global in the
source (mutations to it would survive an abort, though no branch saves an
artifact before a later failure). -/
def dispatchRaw (env : Env) (user_id : String) (store : Store) (st : ExecState)
    (tc : ToolCall) : Store × Except PyErr ExecState :=
  if tc.tool = "mongo.read" then
    match parseMongoReadSpec tc.args with
    | .error ve => (store, .error (.valid ve))
    | .ok spec =>
      match (runMongo env user_id spec).1 with
      | .error pe => (store, .error pe)
      | .ok df => (store, .ok (setDf st df))
  else if tc.tool = "df.op" then
    match parseDataframeOpSpec tc.args with
    | .error ve => (store, .error (.valid ve))
    | .ok spec =>
      match dataframeOps env st.dfCache spec with
      | .error pe => (store, .error pe)
      | .ok df => (store, .ok (setDf st df))
  else if tc.tool = "plot" then
    match parsePlotSpec tc.args with
    | .error ve => (store, .error (.valid ve))
    | .ok spec =>
      match makePlot st.dfCache spec with
      | .error pe => (store, .error pe)
      | .ok png =>
        let (art_id, store') := save_artifact env store (.png png) "image/png" "chart.png"
        (store', .ok { st with resp := { st.resp with
          artifacts := setAssoc st.resp.artifacts "plot_png"
            ⟨art_id, s!"/artifacts/{art_id}"⟩ } })
  else if tc.tool = "excel" then
    match parseExcelSpec tc.args with
    | .error ve => (store, .error (.valid ve))
    | .ok spec =>
      match st.dfCache with
      | some _ =>
        -- `df_cache or pd.DataFrame()` evaluates the truthiness of the
        -- DataFrame, which pandas forbids: ValueError.
        (store, .error (.exn dfTruthinessMsg))
      | none =>
        match export_excel DataFrame.emptyDF spec with
        | .error pe => (store, .error pe)
        | .ok wb =>
          let (art_id, store') := save_artifact env store (.xlsx wb)
            "application/vnd.openxmlformats-officedocument.spreadsheetml.sheet" "report.xlsx"
          (store', .ok { st with resp := { st.resp with
            artifacts := setAssoc st.resp.artifacts "excel"
              ⟨art_id, s!"/artifacts/{art_id}"⟩ } })
  else if tc.tool = "metabase.query" then
    match parseMetabaseQuerySpec tc.args with
    | .error ve => (store, .error (.valid ve))
    | .ok spec =>
      match env.metabaseQueryDf spec with
      | .error pe => (store, .error pe)
      | .ok df => (store, .ok (setDf st df))
  else if tc.tool = "metabase.embed" then
    match parseMetabaseEmbedSpec tc.args with
    | .error ve => (store, .error (.valid ve))
    | .ok spec =>
      match env.metabaseEmbed spec with
      | .error pe => (store, .error pe)
      | .ok url => (store, .ok { st with resp := { st.resp with
          embed_urls := st.resp.embed_urls ++ [url] } })
  else if tc.tool = "crm.create_task" then
    match parseCreateTaskSpec tc.args with
    | .error ve => (store, .error (.valid ve))
    | .ok spec =>
      match create_task env spec with
      | .error pe => (store, .error pe)
      | .ok out => (store, .ok (appendWrite st "create_task" out))
  else if tc.tool = "crm.create_note" then
    match parseCreateNoteSpec tc.args with
    | .error ve => (store, .error (.valid ve))
    | .ok spec =>
      match create_note env spec with
      | .error pe => (store, .error pe)
      | .ok out => (store, .ok (appendWrite st "create_note" out))
  else if tc.tool = "crm.log_call" then
    match parseLogCallSpec tc.args with
    | .error ve => (store, .error (.valid ve))
    | .ok spec =>
      match log_call env spec with
      | .error pe => (store, .error pe)
      | .ok out => (store, .ok (appendWrite st "log_call" out))
  else if tc.tool = "crm.create_activity" then
    match parseCreateActivitySpec tc.args with
    | .error ve => (store, .error (.valid ve))
    | .ok spec =>
      match create_activity env spec with
      | .error pe => (store, .error pe)
      | .ok out => (store, .ok (appendWrite st "create_activity" out))
  else if tc.tool = "crm.update_lead" then
    match parseUpdateLeadSpec tc.args with
    | .error ve => (store, .error (.valid ve))
    | .ok spec =>
      match update_lead env spec with
      | .error pe => (store, .error pe)
      | .ok out => (store, .ok (appendWrite st "update_lead" out))
  else if tc.tool = "transport.toggle_vehicle_type" then
    match parseToggleVehicleTypeSpec tc.args with
    | .error ve => (store, .error (.valid ve))
    | .ok spec =>
      match toggle_vehicle_type env spec with
      | .error pe => (store, .error pe)
      | .ok out => (store, .ok (appendWrite st "toggle_vehicle_type" out))
  else if tc.tool = "transport.trips_paged" then
    match parseBodySpec tc.args with
    | .error ve => (store, .error (.valid ve))
    | .ok spec =>
      match get_staff_transport_trips_paginated env spec with
      | .error pe => (store, .error pe)
      | .ok out => (store, .ok (appendRead st "trips_paged" out))
  else if tc.tool = "transport.add_tracking_log" then
    match parseBodySpec tc.args with
    | .error ve => (store, .error (.valid ve))
    | .ok spec =>
      match add_vehicle_tracking_log env spec with
      | .error pe => (store, .error pe)
      | .ok out => (store, .ok (appendWrite st "add_tracking_log" out))
  else if tc.tool = "transport.cancel_trip" then
    match parseVehicleCancelTripSpec tc.args with
    | .error ve => (store, .error (.valid ve))
    | .ok spec =>
      match vehicle_canceled env spec with
      | .error pe => (store, .error pe)
      | .ok out => (store, .ok (appendWrite st "cancel_trip" out))
  else if tc.tool = "transport.allocate_students" then
    match parseBodySpec tc.args with
    | .error ve => (store, .error (.valid ve))
    | .ok spec =>
      match allocate_students_to_vehicle env spec with
      | .error pe => (store, .error pe)
      | .ok out => (store, .ok (appendWrite st "allocate_students" out))
  else if tc.tool = "transport.change_route_status" then
    match parseChangeVehicleRouteStatusSpec tc.args with
    | .error ve => (store, .error (.valid ve))
    | .ok spec =>
      match change_vehicle_route_status env spec with
      | .error pe => (store, .error pe)
      | .ok out => (store, .ok (appendWrite st "change_route_status" out))
  else if tc.tool = "transport.allocate_staff" then
    match parseBodySpec tc.args with
    | .error ve => (store, .error (.valid ve))
    | .ok spec =>
      match allocate_staff_to_vehicle env spec with
      | .error pe => (store, .error pe)
      | .ok out => (store, .ok (appendWrite st "allocate_staff" out))
  else if tc.tool = "report.build" then
    match parseReportSpec tc.args with
    | .error ve => (store, .error (.valid ve))
    | .ok spec =>
      match build_report env env.now user_id spec with
      | .error pe => (store, .error pe)
      | .ok wb =>
        let (art_id, store') := save_artifact env store (.xlsx wb)
          "application/vnd.openxmlformats-officedocument.spreadsheetml.sheet"
          s!"{spec.title}.xlsx"
        (store', .ok { st with resp := { st.resp with
          artifacts := setAssoc st.resp.artifacts "report"
            ⟨art_id, s!"/artifacts/{art_id}"⟩ } })
  else
    (store, .error (.http ⟨400, s!"Unknown tool {tc.tool}"⟩))

/-- One loop iteration's error handling: the branch, then the `except`
ladder converting raised exceptions to `HTTPException`s. -/
def dispatchTool (env : Env) (user_id : String) (store : Store) (st : ExecState)
    (tc : ToolCall) : Store × Except HError ExecState :=
  match dispatchRaw env user_id store st tc with
  | (store', .error pe) => (store', .error (wrapErr tc.tool pe))
  | (store', .ok st') => (store', .ok st')

/-- Outcome of running a suffix of a plan's tool calls: the audit log and
the list of dispatched calls (both monotone), the artifact store, and
either the final state or the aborting error. -/
structure RunResult where
  audit : List AuditEntry
  dispatched : List ToolCall
  store : Store
  result : Except HError ExecState
deriving Repr

/-- The executor's loop: append an audit entry for call `i` (timestamped by
the wall clock at the current audit length), dispatch it, abort on the
first failure, otherwise continue with the updated state. -/
def runCalls (env : Env) (user_id : String) :
    List ToolCall → Store → ExecState → List AuditEntry → List ToolCall → RunResult
  | [], store, st, aud, disp => ⟨aud, disp, store, .ok st⟩
  | tc :: rest, store, st, aud, disp =>
    let aud' := aud ++ [⟨env.clock aud.length, tc.tool, tc.args⟩]
    let disp' := disp ++ [tc]
    match dispatchTool env user_id store st tc with
    | (store', .error e) => ⟨aud', disp', store', .error e⟩
    | (store', .ok st') => runCalls env user_id rest store' st' aud' disp'

/-- `plan.final_message or "Done."` (an empty string is falsy). -/
def finalMessage (fm : Option String) : String :=
  match fm with
  | none => "Done."
  | some s => if s = "" then "Done." else s

/-- The completed execution response. -/
structure FinalResponse where
  artifacts : List (String × ArtifactRef)
  preview_rows : List Doc
  embed_urls : List String
  writes : Option (List JVal)
  reads : Option (List JVal)
  message : String
  audit : List AuditEntry
deriving Repr

/-- `execute_plan(session_id, user_id, plan)` (`executor.py`): run the tool
calls in order against the artifact store `store`, returning the updated
store and either the assembled response or the first failure (the caller
never sees a partial response). -/
def execute_plan (env : Env) (store : Store) (session_id user_id : String) (plan : Plan) :
    Store × Except HError FinalResponse :=
  let _ := session_id
  let r := runCalls env user_id plan.tool_calls store ExecState.init [] []
  match r.result with
  | .error e => (r.store, .error e)
  | .ok st =>
    (r.store, .ok
      { artifacts := st.resp.artifacts
        preview_rows := st.resp.preview_rows
        embed_urls := st.resp.embed_urls
        writes := st.resp.writes
        reads := st.resp.reads
        message := finalMessage plan.final_message
        audit := r.audit })

/-!  ## Concrete scenarios -/

/-- A baseline environment: no live database, empty mock data, the default
collection allow-list, deterministic clock and id generator, and no
configured Swagger/Metabase collaborators. -/
def stubEnv : Env :=
  { mongoAvailable := false
    now := "2025-01-01T00:00:00+00:00"
    aggregate := fun _ _ => .error "no database"
    mockData := fun _ => []
    allowedCollections := ["leads", "tasks", "notes", "call_logs", "activity"]
    clock := fun n => s!"t{n}"
    genId := fun n => s!"id{n}"
    swagger := none
    metabaseQueryDf := fun _ => .error (.http ⟨503, "Metabase site not configured"⟩)
    metabaseEmbed := fun _ =>
      .error (.http ⟨503, "Metabase embed secret or site URL not configured"⟩)
    sortValues := fun _ _ _ => .error "sort_values unavailable"
    queryFilter := fun _ _ => .error "query unavailable"
    pivotTable := fun _ _ _ _ _ => .error "pivot_table unavailable" }

/-- The specification's 4-row fixture as a working relation. -/
def fixtureDF : DataFrame :=
  { cols := ["owner", "amount"]
    rows := [[.str "Priya", .int 24000], [.str "Aryan", .int 85000],
             [.str "Sneha", .int 45000], [.str "Priya", .int 35000]] }

/-- The groupby call of the specification's scenario:
`{"operation": "groupby", "params": {"by": ["owner"], "agg": {"amount": "sum"}}}`. -/
def groupbyOwnerSpec : DataframeOpSpec :=
  ⟨"groupby", [("by", .arr [.str "owner"]), ("agg", .obj [("amount", .str "sum")])]⟩

/-- The grouped relation the fixture produces (pandas sorts group keys). -/
def groupedFixtureDF : DataFrame :=
  { cols := ["owner", "amount"]
    rows := [[.str "Aryan", .int 85000], [.str "Priya", .int 59000],
             [.str "Sneha", .int 45000]] }

/-!  ## The claims -/

/-- **C5.** Grouping the 4-row fixture by `owner` summing `amount` yields
exactly the 3 rows `Priya: 59000`, `Aryan: 85000`, `Sneha: 45000` (here in
pandas' sorted-key order), for every environment: the result is a fixed
function of the input, hence deterministic for a fixed input order. -/
theorem groupby_fixture_correct (env : Env) :
    dataframeOps env (some fixtureDF) groupbyOwnerSpec = .ok groupedFixtureDF := by
  rfl

/-- **C10.** A `df.op` call with an absent working relation succeeds for
*any* operation: `dataframe_ops` returns the empty relation before the
operation is even dispatched, and the preview rows become `[]`. -/
theorem dfop_absent_relation (env : Env) (user : String) (store : Store)
    (st : ExecState) (args : Doc) (spec : DataframeOpSpec)
    (hdf : st.dfCache = none)
    (hp : parseDataframeOpSpec args = .ok spec) :
    dataframeOps env none spec = .ok DataFrame.emptyDF ∧
    dispatchTool env user store st ⟨"df.op", args⟩ =
      (store, .ok (setDf st DataFrame.emptyDF)) ∧
    (setDf st DataFrame.emptyDF).resp.preview_rows = [] := by
  refine ⟨rfl, ?_, rfl⟩
  simp only [dispatchTool, dispatchRaw]
  simp only [hp]
  rw [hdf]
  rfl

/-- **C10, witness**: a `df.op` with an unknown operation name on the
initial (relation-less) state still succeeds with the empty relation. -/
theorem dfop_absent_relation_witness :
    ExecState.init.dfCache = none ∧
    parseDataframeOpSpec [("operation", .str "frobnicate")] =
      .ok ⟨"frobnicate", []⟩ ∧
    (dataframeOps stubEnv none ⟨"frobnicate", []⟩ = .ok DataFrame.emptyDF ∧
     dispatchTool stubEnv "u" [] ExecState.init
        ⟨"df.op", [("operation", .str "frobnicate")]⟩ =
       ([], .ok (setDf ExecState.init DataFrame.emptyDF)) ∧
     (setDf ExecState.init DataFrame.emptyDF).resp.preview_rows = []) :=
  ⟨rfl, rfl,
   dfop_absent_relation stubEnv "u" [] ExecState.init
     [("operation", .str "frobnicate")] ⟨"frobnicate", []⟩ rfl rfl⟩

/-- **C4.** A read against a collection outside the caller's allow-list
fails 403 with no query issued to the data source, whatever the pipeline
stages and limit, and the `mongo.read` tool call propagates exactly that
403 with the artifact store untouched. -/
theorem read_access_denied (env : Env) (user : String) (spec : MongoReadSpec)
    (store : Store) (st : ExecState) (args : Doc)
    (h : env.allowedCollections.contains spec.collection = false) :
    runMongo env user spec =
      (.error (.http ⟨403, s!"User not allowed to access collection {spec.collection}"⟩), []) ∧
    (parseMongoReadSpec args = .ok spec →
      dispatchTool env user store st ⟨"mongo.read", args⟩ =
        (store, .error ⟨403, s!"User not allowed to access collection {spec.collection}"⟩)) := by
  have hb : (!(rbacPolicy env user).allow_collections.contains spec.collection) = true := by
    show (!env.allowedCollections.contains spec.collection) = true
    rw [h]
    rfl
  have h1 : runMongo env user spec =
      (.error (.http ⟨403, s!"User not allowed to access collection {spec.collection}"⟩), []) := by
    unfold runMongo
    simp only [hb]
    rfl
  refine ⟨h1, fun hp => ?_⟩
  simp only [dispatchTool, dispatchRaw]
  simp only [hp, h1]
  rfl

/-- **C4, witness**: reading the collection `secrets` (absent from the
default allow-list) is denied with no query issued. -/
theorem read_access_denied_witness :
    stubEnv.allowedCollections.contains "secrets" = false ∧
    runMongo stubEnv "admin" ⟨"secrets", [[("$match", .obj [])]], 50⟩ =
      (.error (.http ⟨403, "User not allowed to access collection secrets"⟩), []) :=
  ⟨rfl, (read_access_denied stubEnv "admin" ⟨"secrets", [[("$match", .obj [])]], 50⟩
    [] ExecState.init [] rfl).1⟩

/-- **C8.** A `plot` tool call while the working relation is absent or
empty fails with the 400 `No data to plot` error before anything is
rendered: the dispatch returns the artifact store unchanged, so no
artifact (zero-byte or otherwise) is ever saved. -/
theorem plot_empty_relation (env : Env) (user : String) (store : Store)
    (st : ExecState) (args : Doc) (spec : PlotSpec)
    (hempty : relationAbsentOrEmpty st.dfCache = true)
    (hp : parsePlotSpec args = .ok spec) :
    makePlot st.dfCache spec = .error (.http ⟨400, "No data to plot"⟩) ∧
    dispatchTool env user store st ⟨"plot", args⟩ =
      (store, .error ⟨400, "No data to plot"⟩) := by
  have h1 : makePlot st.dfCache spec = .error (.http ⟨400, "No data to plot"⟩) := by
    unfold makePlot
    rw [hempty]
    rfl
  refine ⟨h1, ?_⟩
  simp only [dispatchTool, dispatchRaw]
  simp only [hp, h1]
  rfl

/-- **C8, witness**: plotting over a zero-row relation fails `EmptyInput`
and leaves the store unchanged. -/
theorem plot_empty_relation_witness :
    relationAbsentOrEmpty (some ⟨["amount"], []⟩) = true ∧
    parsePlotSpec [("kind", .str "bar"), ("x", .str "owner"), ("y", .str "amount")] =
      .ok ⟨"bar", some "owner", some "amount", some "sum", none⟩ ∧
    dispatchTool stubEnv "u" [] ⟨some ⟨["amount"], []⟩, ResponseAcc.init⟩
        ⟨"plot", [("kind", .str "bar"), ("x", .str "owner"), ("y", .str "amount")]⟩ =
      ([], .error ⟨400, "No data to plot"⟩) :=
  ⟨rfl, rfl,
   (plot_empty_relation stubEnv "u" [] ⟨some ⟨["amount"], []⟩, ResponseAcc.init⟩
      [("kind", .str "bar"), ("x", .str "owner"), ("y", .str "amount")]
      ⟨"bar", some "owner", some "amount", some "sum", none⟩ rfl rfl).2⟩

/-- Redaction invariant on a relation: no column's head segment matches a
denied field (this covers both a top-level field equal to a denied name
and any nested field reachable from it by dotted prefix). -/
def redactedOk (df : DataFrame) : Bool :=
  df.cols.all (fun c => !denyFields.contains (headSegment c))

/-- Filtering by a predicate leaves only columns satisfying it. -/
theorem keep_all_denied (cols deny : List String) :
    ((cols.filter (fun c => !deny.contains (headSegment c))).all
      (fun c => !deny.contains (headSegment c))) = true := by
  simp only [List.all_eq_true, List.mem_filter]
  exact fun c hc => hc.2

/-- Projecting a relation to its redaction-surviving columns yields a
redaction-clean relation. -/
theorem redactedOk_selectKeep (df : DataFrame) :
    redactedOk (df.selectKnown (keepColumns df denyFields)) = true := by
  simp only [redactedOk, DataFrame.selectKnown, keepColumns]
  exact keep_all_denied df.cols denyFields

/-- **C2.** Every relation a read returns — live database or mock
fallback, whatever the shape of the source rows — contains no column equal
to a denied field nor any nested (dotted) field under one: redaction is
applied on every successful read path. -/
theorem read_redaction (env : Env) (user : String) (spec : MongoReadSpec)
    (df : DataFrame) (h : (runMongo env user spec).1 = .ok df) :
    redactedOk df = true := by
  unfold runMongo at h
  repeat' first
    | split at h
    | dsimp only at h
  all_goals first
    | exact Except.noConfusion h
    | (injection h with h2; subst h2; rfl)
    | (injection h with h2; subst h2; exact redactedOk_selectKeep _)

/-- **C2, witness**: a mock source row carrying a nested `ssn` document
and a top-level `salary` comes back with only the non-denied column (the
nested `ssn.last4` is removed by dotted-prefix match). -/
theorem read_redaction_witness :
    (runMongo
      { stubEnv with mockData := fun _ =>
          [[("ssn", .obj [("last4", .str "6789")]), ("name", .str "Acme"),
            ("salary", .int 90000)]] }
      "u" ⟨"leads", [], 1000⟩).1 =
      .ok ⟨["name"], [[.str "Acme"]]⟩ ∧
    redactedOk ⟨["name"], [[.str "Acme"]]⟩ = true :=
  ⟨rfl,
   read_redaction
     { stubEnv with mockData := fun _ =>
         [[("ssn", .obj [("last4", .str "6789")]), ("name", .str "Acme"),
           ("salary", .int 90000)]] }
     "u" ⟨"leads", [], 1000⟩ _ rfl⟩

/-- The eleven crm/transport tools whose result is appended to the
response's `writes` list. -/
def crmWriteTools : List String :=
  ["crm.create_task", "crm.create_note", "crm.log_call", "crm.create_activity",
   "crm.update_lead", "transport.toggle_vehicle_type", "transport.add_tracking_log",
   "transport.cancel_trip", "transport.allocate_students",
   "transport.change_route_status", "transport.allocate_staff"]

/-- What a successful external call leaves behind: the working relation,
preview and artifacts untouched; a crm/transport write appends exactly one
item to `writes` (touching neither `reads` nor `embed_urls`);
`transport.trips_paged` appends exactly one item to `reads` (not
`writes`); `metabase.embed` appends exactly one URL to `embed_urls`. -/
def externalCallFrame (st st' : ExecState) (tool : String) : Prop :=
  st'.dfCache = st.dfCache ∧
  st'.resp.preview_rows = st.resp.preview_rows ∧
  st'.resp.artifacts = st.resp.artifacts ∧
  (crmWriteTools.contains tool = true →
    (∃ item, st'.resp.writes = some (st.resp.writes.getD [] ++ [item])) ∧
    st'.resp.reads = st.resp.reads ∧
    st'.resp.embed_urls = st.resp.embed_urls) ∧
  (tool = "transport.trips_paged" →
    (∃ item, st'.resp.reads = some (st.resp.reads.getD [] ++ [item])) ∧
    st'.resp.writes = st.resp.writes ∧
    st'.resp.embed_urls = st.resp.embed_urls) ∧
  (tool = "metabase.embed" →
    (∃ url, st'.resp.embed_urls = st.resp.embed_urls ++ [url]) ∧
    st'.resp.writes = st.resp.writes ∧
    st'.resp.reads = st.resp.reads)

/-- A swagger-configured environment whose collaborator answers `"ok"`. -/
def envSwagger : Env :=
  { stubEnv with swagger := some (fun _ _ _ => .ok (.str "ok")) }

/-- **C9, counterexample.** `transport.trips_paged` is a `transport.*`
call, yet a successful one appends its result to a `reads` list and
appends *nothing* to the `writes` list — the claim's "a write call
(crm.* or transport.*) appends exactly one result to the writes list" is
false for it. -/
theorem trips_paged_not_a_write_counterexample :
    dispatchTool envSwagger "u" [] ExecState.init ⟨"transport.trips_paged", []⟩ =
      ([], .ok (appendRead ExecState.init "trips_paged" (.str "ok"))) ∧
    (appendRead ExecState.init "trips_paged" (.str "ok")).resp.writes = none ∧
    (appendRead ExecState.init "trips_paged" (.str "ok")).resp.reads =
      some [.obj [("trips_paged", .str "ok")]] :=
  ⟨rfl, rfl, rfl⟩

/-- **C9, amended.** A successful `metabase.embed`, `crm.*` or
`transport.*` call leaves the working relation, the preview rows and the
artifacts map unchanged, and appends exactly one item to exactly one
response list — `writes` for the eleven write tools, `reads` for
`transport.trips_paged` (the one `transport.*` call that is a read), and
`embed_urls` for `metabase.embed` — touching nothing else in the
accumulated response; the artifact store is returned unchanged. -/
theorem external_calls_frame (env : Env) (user : String) (store : Store)
    (st : ExecState) (tool : String) (args : Doc) (store' : Store) (st' : ExecState)
    (hmem : crmWriteTools.contains tool = true ∨ tool = "transport.trips_paged" ∨
      tool = "metabase.embed")
    (h : dispatchTool env user store st ⟨tool, args⟩ = (store', .ok st')) :
    store' = store ∧ externalCallFrame st st' tool := by
  unfold externalCallFrame
  rcases hmem with hw | rfl | rfl
  · simp only [crmWriteTools, List.contains_cons, List.contains_nil, Bool.or_eq_true,
      beq_iff_eq] at hw
    rcases hw with rfl | rfl | rfl | rfl | rfl | rfl | rfl | rfl | rfl | rfl | rfl | hfalse
    all_goals (try (exact Bool.noConfusion hfalse))
    all_goals (
      simp only [dispatchTool, dispatchRaw] at h;
      simp at h;
      split at h
      · simp at h
      · rename_i s0 st0 heq
        rw [Prod.mk.injEq] at h
        obtain ⟨rfl, hst⟩ := h
        injection hst with hst
        subst hst
        repeat' split at heq
        all_goals simp at heq
        obtain ⟨rfl, rfl⟩ := heq
        exact ⟨rfl, rfl, rfl, rfl, fun _ => ⟨⟨_, rfl⟩, rfl, rfl⟩,
          fun hbad => absurd hbad (by decide), fun hbad => absurd hbad (by decide)⟩)
  · simp only [dispatchTool, dispatchRaw] at h
    simp at h
    split at h
    · simp at h
    · rename_i s0 st0 heq
      rw [Prod.mk.injEq] at h
      obtain ⟨rfl, hst⟩ := h
      injection hst with hst
      subst hst
      repeat' split at heq
      all_goals simp at heq
      obtain ⟨rfl, rfl⟩ := heq
      exact ⟨rfl, rfl, rfl, rfl, fun hbad => absurd hbad (by decide),
        fun _ => ⟨⟨_, rfl⟩, rfl, rfl⟩, fun hbad => absurd hbad (by decide)⟩
  · simp only [dispatchTool, dispatchRaw] at h
    simp at h
    split at h
    · simp at h
    · rename_i s0 st0 heq
      rw [Prod.mk.injEq] at h
      obtain ⟨rfl, hst⟩ := h
      injection hst with hst
      subst hst
      repeat' split at heq
      all_goals simp at heq
      obtain ⟨rfl, rfl⟩ := heq
      exact ⟨rfl, rfl, rfl, rfl, fun hbad => absurd hbad (by decide),
        fun hbad => absurd hbad (by decide), fun _ => ⟨⟨_, rfl⟩, rfl, rfl⟩⟩

/-- **C9, witness for the amended theorem**: a successful
`crm.create_task` against the swagger-configured environment. -/
theorem external_calls_frame_witness :
    dispatchTool envSwagger "u" [] ExecState.init
        ⟨"crm.create_task", [("title", .str "Call Acme")]⟩ =
      ([], .ok (appendWrite ExecState.init "create_task" (.str "ok"))) ∧
    (([] : Store) = [] ∧
     externalCallFrame ExecState.init
       (appendWrite ExecState.init "create_task" (.str "ok")) "crm.create_task") :=
  ⟨rfl,
   external_calls_frame envSwagger "u" [] ExecState.init "crm.create_task"
     [("title", .str "Call Acme")] []
     (appendWrite ExecState.init "create_task" (.str "ok"))
     (Or.inl (by decide)) rfl⟩

/-- The specification's 4-row fixture as raw source documents. -/
def fixtureDocs : List Doc :=
  [[("owner", .str "Priya"), ("amount", .int 24000)],
   [("owner", .str "Aryan"), ("amount", .int 85000)],
   [("owner", .str "Sneha"), ("amount", .int 45000)],
   [("owner", .str "Priya"), ("amount", .int 35000)]]

/-- A live-database environment whose `leads` collection holds the 4-row
fixture. -/
def envLive : Env :=
  { stubEnv with
      mongoAvailable := true
      aggregate := fun c _ => if c = "leads" then .ok fixtureDocs else .error "no such collection" }

/-- The end-to-end scenario plan: read `leads` (limit 10), group by owner
summing amount, export to a spreadsheet named `Report`. -/
def scenarioPlan : Plan :=
  ⟨"export grouped amounts",
   [⟨"mongo.read", [("collection", .str "leads"), ("pipeline", .arr []), ("limit", .int 10)]⟩,
    ⟨"df.op", [("operation", .str "groupby"),
               ("params", .obj [("by", .arr [.str "owner"]),
                                ("agg", .obj [("amount", .str "sum")])])]⟩,
    ⟨"excel", [("sheet_name", .str "Report")]⟩],
   some "Here is the report."⟩

/-- **C3.** Running the end-to-end scenario plan over the 4-row fixture:
the first two calls succeed and the working relation is exactly the 3
grouped rows, but the `excel` step then *fails* with a 500 — the branch
evaluates `df_cache or pd.DataFrame()`, and pandas raises `ValueError` on
any `DataFrame` used in boolean context — so `execute_plan` raises instead
of completing with an `excel` artifact: the code contradicts the
specification's end-to-end property (a slip; the intent is clearly
`df_cache if df_cache is not None else pd.DataFrame()`). -/
theorem end_to_end_excel_truthiness_bug :
    (runCalls envLive "u1" (scenarioPlan.tool_calls.take 2) [] ExecState.init [] []).result =
      .ok (setDf (setDf ExecState.init fixtureDF) groupedFixtureDF) ∧
    (setDf (setDf ExecState.init fixtureDF) groupedFixtureDF).dfCache = some groupedFixtureDF ∧
    execute_plan envLive [] "s1" "u1" scenarioPlan =
      ([], .error ⟨500, "Tool execution error in excel: " ++ dfTruthinessMsg⟩) :=
  ⟨rfl, rfl, rfl⟩

/-- Running `l1 ++ l2` when `l1` runs clean continues `l2` from `l1`'s
final state, audit and dispatch trace. -/
theorem runCalls_append (env : Env) (user : String) (l1 l2 : List ToolCall)
    (store : Store) (st : ExecState) (aud : List AuditEntry) (disp : List ToolCall)
    (st1 : ExecState)
    (h : (runCalls env user l1 store st aud disp).result = .ok st1) :
    runCalls env user (l1 ++ l2) store st aud disp =
      runCalls env user l2 (runCalls env user l1 store st aud disp).store st1
        (runCalls env user l1 store st aud disp).audit
        (runCalls env user l1 store st aud disp).dispatched := by
  induction l1 generalizing store st aud disp with
  | nil =>
    simp only [runCalls] at h
    injection h with h
    subst h
    simp [runCalls]
  | cons tc rest ih =>
    simp only [List.cons_append, runCalls] at h ⊢
    cases hd : dispatchTool env user store st tc with
    | mk store2 r =>
      rw [hd] at h
      cases r with
      | error e => exact Except.noConfusion h
      | ok st2 => exact ih _ _ _ _ h

/-- A clean run of `l` extends the audit log by exactly one entry per call,
in call order, and dispatches exactly the calls of `l`. -/
theorem runCalls_ok_trace (env : Env) (user : String) (l : List ToolCall)
    (store : Store) (st : ExecState) (aud : List AuditEntry) (disp : List ToolCall)
    (st1 : ExecState)
    (h : (runCalls env user l store st aud disp).result = .ok st1) :
    (runCalls env user l store st aud disp).audit.map (fun a => (a.tool, a.args)) =
      aud.map (fun a => (a.tool, a.args)) ++ l.map (fun c => (c.tool, c.args)) ∧
    (runCalls env user l store st aud disp).dispatched = disp ++ l := by
  induction l generalizing store st aud disp with
  | nil => simp [runCalls]
  | cons tc rest ih =>
    simp only [runCalls] at h ⊢
    cases hd : dispatchTool env user store st tc with
    | mk store2 r =>
      rw [hd] at h
      cases r with
      | error e => exact Except.noConfusion h
      | ok st2 =>
        obtain ⟨ha, hdp⟩ := ih _ _ _ _ h
        constructor
        · rw [ha]; simp
        · rw [hdp]; simp

/-- **C1.** If the first `k-1` tool calls of a plan run clean and the
`k`-th fails (validation or execution), `execute_plan` raises that very
error to the caller (no partial response); at that point the audit log has
exactly `k` entries — one per attempted call, in call order, the failing
call included because its entry is appended before the dispatch — and no
call after the `k`-th is ever dispatched. -/
theorem audit_abort_on_failure (env : Env) (session user intent : String)
    (fm : Option String) (pre post : List ToolCall) (tc : ToolCall)
    (store0 : Store) (st1 : ExecState) (e : HError)
    (h1 : (runCalls env user pre store0 ExecState.init [] []).result = .ok st1)
    (h2 : (dispatchTool env user (runCalls env user pre store0 ExecState.init [] []).store
            st1 tc).2 = .error e) :
    (execute_plan env store0 session user ⟨intent, pre ++ tc :: post, fm⟩).2 = .error e ∧
    (runCalls env user (pre ++ tc :: post) store0 ExecState.init [] []).result = .error e ∧
    (runCalls env user (pre ++ tc :: post) store0 ExecState.init [] []).audit.length =
      pre.length + 1 ∧
    (runCalls env user (pre ++ tc :: post) store0 ExecState.init [] []).audit.map
        (fun a => (a.tool, a.args)) =
      (pre ++ [tc]).map (fun c => (c.tool, c.args)) ∧
    (runCalls env user (pre ++ tc :: post) store0 ExecState.init [] []).dispatched =
      pre ++ [tc] := by
  have happ := runCalls_append env user pre (tc :: post) store0 ExecState.init [] [] st1 h1
  obtain ⟨ha, hdp⟩ := runCalls_ok_trace env user pre store0 ExecState.init [] [] st1 h1
  have hstep : runCalls env user (tc :: post)
      (runCalls env user pre store0 ExecState.init [] []).store st1
      (runCalls env user pre store0 ExecState.init [] []).audit
      (runCalls env user pre store0 ExecState.init [] []).dispatched =
      { audit := (runCalls env user pre store0 ExecState.init [] []).audit ++
          [{ at_ := env.clock (runCalls env user pre store0 ExecState.init [] []).audit.length,
             tool := tc.tool, args := tc.args }]
        dispatched := (runCalls env user pre store0 ExecState.init [] []).dispatched ++ [tc]
        store := (dispatchTool env user
          (runCalls env user pre store0 ExecState.init [] []).store st1 tc).1
        result := .error e } := by
    simp only [runCalls]
    cases hd : dispatchTool env user
        (runCalls env user pre store0 ExecState.init [] []).store st1 tc with
    | mk store2 r =>
      rw [hd] at h2
      cases r with
      | error e2 =>
        injection h2 with h2
        subst h2
        rfl
      | ok st2 => exact Except.noConfusion h2
  have hlen : (runCalls env user pre store0 ExecState.init [] []).audit.length =
      pre.length := by
    have hlm := congrArg List.length ha
    simpa using hlm
  rw [happ, hstep]
  refine ⟨?_, rfl, ?_, ?_, ?_⟩
  · unfold execute_plan
    rw [happ, hstep]
  · simp [hlen]
  · simp only [List.map_append, ha]
    simp
  · rw [hdp]
    simp

/-- The one-call prefix of the abort witness: a `df.op` that succeeds. -/
def okPrefix : List ToolCall := [⟨"df.op", [("operation", .str "select")]⟩]

/-- The failing second call of the abort witness: an unknown tool name. -/
def badCall : ToolCall := ⟨"nosuch", []⟩

/-- **C1, witness**: a two-call plan whose first `df.op` call succeeds and
whose second call names an unknown tool, aborting with 400 after exactly
two audit entries. -/
theorem audit_abort_on_failure_witness :
    (runCalls stubEnv "u" okPrefix [] ExecState.init [] []).result =
      .ok (setDf ExecState.init DataFrame.emptyDF) ∧
    (dispatchTool stubEnv "u"
      (runCalls stubEnv "u" okPrefix [] ExecState.init [] []).store
      (setDf ExecState.init DataFrame.emptyDF) badCall).2 =
      .error ⟨400, "Unknown tool nosuch"⟩ ∧
    ((execute_plan stubEnv [] "s" "u" ⟨"i", okPrefix ++ badCall :: [], none⟩).2 =
        .error ⟨400, "Unknown tool nosuch"⟩ ∧
      (runCalls stubEnv "u" (okPrefix ++ badCall :: []) [] ExecState.init [] []).result =
        .error ⟨400, "Unknown tool nosuch"⟩ ∧
      (runCalls stubEnv "u" (okPrefix ++ badCall :: []) [] ExecState.init [] []).audit.length =
        okPrefix.length + 1 ∧
      (runCalls stubEnv "u" (okPrefix ++ badCall :: []) [] ExecState.init [] []).audit.map
          (fun a => (a.tool, a.args)) =
        (okPrefix ++ [badCall]).map (fun c => (c.tool, c.args)) ∧
      (runCalls stubEnv "u" (okPrefix ++ badCall :: []) [] ExecState.init [] []).dispatched =
        okPrefix ++ [badCall]) :=
  ⟨rfl, rfl,
   audit_abort_on_failure stubEnv "s" "u" "i" none okPrefix [] badCall []
     (setDf ExecState.init DataFrame.emptyDF) ⟨400, "Unknown tool nosuch"⟩ rfl rfl⟩

/-- A one-column relation whose two stringified values have lengths 10 and
31, so the 90th-percentile length is 28.9: truncation gives width 31, the
specification's ceiling formula gives 32. -/
def fractionalQuantileDF : DataFrame :=
  { cols := ["v"]
    rows := [[.str "aaaaaaaaaa"], [.str "bbbbbbbbbbbbbbbbbbbbbbbbbbbbbbb"]] }

/-- **C6, counterexample.** On `fractionalQuantileDF` with autofit on, the
exporter sets the column width to 31 (`int()` truncates the 28.9
percentile), while the claim's `clamp(10, 60, ⌈q90⌉ + 3)` formula demands
32: the claim is false as stated. -/
theorem excel_autofit_ceiling_counterexample :
    export_excel fractionalQuantileDF ⟨"Report", false, true⟩ =
      .ok ⟨[⟨"Report", false, fractionalQuantileDF, [(1, 31)]⟩]⟩ ∧
    specCeilWidth (colLens fractionalQuantileDF 0) = 32 ∧ (31 : Nat) ≠ 32 := by
  refine ⟨rfl, rfl, by decide⟩

/-- **C6, amended.** For every working relation with at least one row and
every export spec with autofit enabled, the exporter sets the `j`-th
column's width to `clamp(10, 60, ⌊q90 of stringified lengths⌋ + 3)` — the
*truncated* 90th percentile plus 3 — deterministically (the width is a
function of the relation alone).  (On a relation with columns but no rows
the exporter instead fails: `int(NaN)` raises.) -/
theorem excel_autofit_width_formula (df : DataFrame) (spec : ExcelSpec)
    (hauto : spec.autofit = true) (hrows : df.rows ≠ []) :
    export_excel df spec =
      .ok ⟨[⟨spec.sheet_name, spec.index, df,
            (List.range df.cols.length).map
              (fun j => (j + 1, autofitWidth (colLens df j)))⟩]⟩ := by
  unfold export_excel
  rw [hauto]
  by_cases hc : df.cols.isEmpty
  · have : df.cols = [] := by simpa [List.isEmpty_iff] using hc
    simp [hc, this]
  · have hr : df.rows.isEmpty = false := by
      simpa [List.isEmpty_iff] using hrows
    simp [hc, hr]

/-- **C6, witness for the amended theorem** at `fractionalQuantileDF`. -/
theorem excel_autofit_width_formula_witness :
    (⟨"Report", false, true⟩ : ExcelSpec).autofit = true ∧
    fractionalQuantileDF.rows ≠ [] ∧
    export_excel fractionalQuantileDF ⟨"Report", false, true⟩ =
      .ok ⟨[⟨"Report", false, fractionalQuantileDF,
            (List.range fractionalQuantileDF.cols.length).map
              (fun j => (j + 1, autofitWidth (colLens fractionalQuantileDF j)))⟩]⟩ :=
  ⟨rfl, by simp [fractionalQuantileDF],
   excel_autofit_width_formula fractionalQuantileDF ⟨"Report", false, true⟩ rfl
     (by simp [fractionalQuantileDF])⟩
